import Mathlib

/-
Shallow embedding of the qemu VM process supervisor (package qemukernel,
file qemu-kernel.go) and proofs settling the frozen claims about it.
Go integers that stay small and non-negative are modelled as Nat; Go
byte-slice buffers as String; the process-wide random source as explicit
Nat arguments (one per rand.Int() call); the host filesystem and the OS
scheduler as explicit function-valued parameters.  A Go panic is modelled
as a dedicated constructor of an outcome type, since it is not a value
returned to the caller.
-/

namespace QemuKernel

/-- Character-list test that `needle` is an initial segment of `hay`
(the primitive under the substring search of bytes.Contains). -/
def leadsWith : List Char → List Char → Bool
  | [], _ => true
  | _ :: _, [] => false
  | a :: as, b :: bs => a = b && leadsWith as bs

/-- Substring search over character lists: does `needle` occur at some
position of `hay`?  Models bytes.Contains from the Go standard library. -/
def subAt (needle : List Char) : List Char → Bool
  | [] => leadsWith needle []
  | c :: t => leadsWith needle (c :: t) || subAt needle t

/-- String form of the substring search: bytes.Contains(hay, needle). -/
def hasSub (hay needle : String) : Bool :=
  subAt needle.data hay.data

/-- Arch constant X86_64 from the source (`X86_64 arch = "x86_64"`). -/
def X86_64 : String := "x86_64"

/-- Arch constant I386 from the source (`I386 = "i386"`). -/
def I386 : String := "i386"

/-- Kernel describes kernel parameters for qemu (struct Kernel). -/
structure Kernel where
  Name : String
  KernelPath : String
  InitrdPath : String
deriving DecidableEq

/-- QemuSystem describes qemu parameters and the run state (struct
QemuSystem). Process handles and pipes are not part of the pure state;
the Stdout and Stderr accumulators are modelled as Strings. -/
structure QemuSystem where
  arch : String
  kernel : Kernel
  drivePath : String
  Cpus : Nat
  Memory : Nat
  debug : Bool
  gdb : String
  Timeout : Nat
  KilledByTimeout : Bool
  KernelPanic : Bool
  Died : Bool
  sshAddrPort : String
  Stdout : String
  Stderr : String
deriving DecidableEq

/-- Go zero value of the QemuSystem struct, as produced by `&QemuSystem{}`:
empty strings, zero numbers, false booleans. -/
def zeroQemu : QemuSystem :=
  { arch := "", kernel := ⟨"", "", ""⟩, drivePath := "", Cpus := 0, Memory := 0,
    debug := false, gdb := "", Timeout := 0, KilledByTimeout := false,
    KernelPanic := false, Died := false, sshAddrPort := "", Stdout := "", Stderr := "" }

/-! ## Shutdown protocol (func (q *QemuSystem) Stop) -/

/-- Signals the Stop escalation can send to the child process. -/
inductive Sig where
  | term
  | kill
deriving DecidableEq

/-- Observable steps of one Stop() invocation. -/
inductive StopAct where
  | writeQuit
  | sleepTenth
  | signal (s : Sig)
deriving DecidableEq

/-- Steps performed by Stop(): write the Ctrl-A x quit sequence to stdin,
sleep ~100 ms, and then, if q.Died was still false at that single check,
send SIGTERM, sleep ~100 ms again, and send SIGKILL.  `diedAtCheck` is the
value of q.Died read by the one `if !q.Died` test; the source performs no
further check of the exit state after SIGTERM. -/
def stopActions (diedAtCheck : Bool) : List StopAct :=
  [StopAct.writeQuit, StopAct.sleepTenth] ++
    (if diedAtCheck then []
     else [StopAct.signal Sig.term, StopAct.sleepTenth, StopAct.signal Sig.kill])

/-- Signals sent by one Stop() invocation.  `diedAfterTermWait` models
whether the process exited during the second ~100 ms wait (between SIGTERM
and SIGKILL); it is ignored by the body because the source never re-reads
q.Died there, which is exactly what claim C1 is about. -/
def stopSignals (diedAtCheck diedAfterTermWait : Bool) : List Sig :=
  (stopActions diedAtCheck).filterMap
    (fun a => match a with
      | StopAct.signal s => some s
      | _ => none)

/-! ## Random address and port synthesis (getRandomAddrPort, getRandomPort) -/

/-- Second IPv4 octet synthesized by getRandomAddrPort: rand.Int()%254+1. -/
def randOctet2 (r : Nat) : Nat := r % 254 + 1

/-- Third IPv4 octet synthesized by getRandomAddrPort: rand.Int()%255. -/
def randOctet3 (r : Nat) : Nat := r % 255

/-- Fourth IPv4 octet synthesized by getRandomAddrPort: rand.Int()%254. -/
def randOctet4 (r : Nat) : Nat := r % 254

/-- Port synthesized by getRandomAddrPort: rand.Int()%40000+10000. -/
def randPortHi (r : Nat) : Nat := r % 40000 + 10000

/-- Port synthesized by getRandomPort: rand.Int()%(65536-1024)+1024. -/
def randPortLo (r : Nat) : Nat := r % (65536 - 1024) + 1024

/-- getRandomAddrPort synthesizes "127.<o2>.<o3>.<o4>:<port>" from four
draws of the random source. -/
def getRandomAddrPort (r1 r2 r3 r4 : Nat) : String :=
  "127." ++ toString (randOctet2 r1) ++ "." ++ toString (randOctet3 r2) ++ "."
    ++ toString (randOctet4 r3) ++ ":" ++ toString (randPortHi r4)

/-- getRandomPort synthesizes "<ip>:<port>" with a port drawn in 1024..65535. -/
def getRandomPort (ip : String) (r : Nat) : String :=
  ip ++ ":" ++ toString (randPortLo r)

/-- Theorem C1 (counterexample): the claim that the kill signal is sent
only if the process has still not exited after the terminate signal and
the second ~100 ms wait is false: with diedAtCheck = false and
diedAfterTermWait = true (the process exits during the second wait),
Stop still sends SIGKILL, because the source never re-checks q.Died. -/
theorem c1_counterexample :
    ¬ (∀ d1 d2 : Bool, d2 = true → Sig.kill ∉ stopSignals d1 d2) := by
  decide

/-- Theorem C1 (amended): the signals a Stop() invocation sends do not
depend on whether the process exits during the second wait; if the process
had already exited at the single q.Died check, no signal at all is sent
(so a second Stop after exit signals nothing); otherwise SIGTERM is
followed unconditionally by SIGKILL; and SIGTERM is sent exactly when the
process had not exited at that check. -/
theorem c1_stop_escalation_amended (d1 d2 d2x : Bool) :
    stopSignals d1 d2 = stopSignals d1 d2x ∧
    stopSignals true d2 = [] ∧
    stopSignals false d2 = [Sig.term, Sig.kill] ∧
    (Sig.term ∈ stopSignals d1 d2 ↔ d1 = false) := by
  revert d1 d2 d2x
  decide

/-- Witness for C1: at the concrete input diedAtCheck = false, Stop sends
the terminate signal. -/
theorem c1_witness : Sig.term ∈ stopSignals false true :=
  ((c1_stop_escalation_amended false true false).2.2.2).mpr rfl

/-! ## Port allocator (getFreeAddrPort) -/

/-- Outcome of running a Go function that can panic: either its return
value or a crash with the panic message.  The Go signature of
getFreeAddrPort returns only the address string; it has no error return. -/
inductive GoOutcome (α : Type) where
  | ok (val : α)
  | panicked (msg : String)
deriving DecidableEq

/-- Message of the panic raised when the allocator exhausts its budget. -/
def allocPanicMsg : String := "Can\x27t found free address:port on localhost"

/-- Candidate synthesized by iteration `i` of the allocator loop: on
GOOS "linux" a random loopback address and high port (four random draws),
otherwise the canonical loopback 127.0.0.1 with a random port (one draw).
`rnd` is the stream of rand.Int() results. -/
def candidateAt (goos : String) (rnd : Nat → Nat) (i : Nat) : String :=
  if goos = "linux" then
    getRandomAddrPort (rnd (4 * i)) (rnd (4 * i + 1)) (rnd (4 * i + 2)) (rnd (4 * i + 3))
  else
    getRandomPort "127.0.0.1" (rnd i)

/-- Loop body of getFreeAddrPort: synthesize candidate i, attempt to bind
it (`bindOk i`); a successful bind returns the candidate; on failure, if
the clock `timeAt i` has passed the deadline, panic; otherwise retry.
`fuel` bounds the unrolling; `none` means the loop is still running after
`fuel` iterations. -/
def allocLoop (bindOk : Nat → Bool) (timeAt : Nat → Nat) (deadline : Nat)
    (cand : Nat → String) : Nat → Nat → Option (GoOutcome String)
  | _, 0 => none
  | i, fuel + 1 =>
    if bindOk i then some (GoOutcome.ok (cand i))
    else if deadline < timeAt i then some (GoOutcome.panicked allocPanicMsg)
    else allocLoop bindOk timeAt deadline cand (i + 1) fuel

/-- getFreeAddrPort: run the allocator loop from iteration 0, with the
deadline set one second after entry (time.Now().Add(time.Second)). -/
def getFreeAddrPort (goos : String) (rnd : Nat → Nat) (bindOk : Nat → Bool)
    (timeAt : Nat → Nat) (deadline fuel : Nat) : Option (GoOutcome String) :=
  allocLoop bindOk timeAt deadline (candidateAt goos rnd) 0 fuel

/-- Helper: one unfolding step of the allocator loop. -/
theorem allocLoop_succ (bindOk : Nat → Bool) (timeAt : Nat → Nat) (deadline : Nat)
    (cand : Nat → String) (i fuel : Nat) :
    allocLoop bindOk timeAt deadline cand i (fuel + 1)
      = if bindOk i then some (GoOutcome.ok (cand i))
        else if deadline < timeAt i then some (GoOutcome.panicked allocPanicMsg)
        else allocLoop bindOk timeAt deadline cand (i + 1) fuel := rfl

/-- Helper: under an always-failing bind, the allocator loop panics as soon
as the clock passes the deadline (at the latest by iteration i + k, given
fuel k + 1). -/
theorem allocLoop_panics (bindOk : Nat → Bool) (timeAt : Nat → Nat) (deadline : Nat)
    (cand : Nat → String) :
    ∀ k i : Nat, (∀ j, bindOk j = false) → deadline < timeAt (i + k) →
      allocLoop bindOk timeAt deadline cand i (k + 1) = some (GoOutcome.panicked allocPanicMsg) := by
  intro k
  induction k with
  | zero =>
    intro i hb ht
    rw [Nat.add_zero] at ht
    rw [allocLoop_succ, if_neg (by simp [hb i]), if_pos ht]
  | succ n ih =>
    intro i hb ht
    rw [allocLoop_succ]
    by_cases hd : deadline < timeAt i
    · rw [if_neg (by simp [hb i]), if_pos hd]
    · have hnext : deadline < timeAt (i + 1 + n) := by
        have heq : i + 1 + n = i + (n + 1) := by omega
        rw [heq]
        exact ht
      rw [if_neg (by simp [hb i]), if_neg hd]
      exact ih (i + 1) hb hnext

/-- Theorem C2 (counterexample): the claim that an allocator whose bind
always fails terminates only by returning an AllocationError value is
false: the source has no error return at all, and at the concrete input
below (bind always failing, clock advancing 100 ms per iteration) the run
terminates by panicking with the exhaustion message. -/
theorem c2_counterexample :
    ¬ (∀ fuel : Nat,
        getFreeAddrPort "linux" (fun n => n) (fun _ => false) (fun i => 100 * i) 1000 fuel
          ≠ some (GoOutcome.panicked allocPanicMsg)) := by
  intro h
  exact h 12 (by decide)

/-- Theorem C2 (amended): for every run of the allocator in which the
underlying bind always fails, once the wall clock passes the 1-second
deadline the loop terminates promptly — it does not retry forever — but it
terminates by panicking (aborting the process) with the exhaustion
message, not by returning an error value to the caller. -/
theorem c2_alloc_budget_amended (goos : String) (rnd : Nat → Nat) (bindOk : Nat → Bool)
    (timeAt : Nat → Nat) (deadline N : Nat)
    (hb : ∀ j, bindOk j = false) (ht : deadline < timeAt N) :
    getFreeAddrPort goos rnd bindOk timeAt deadline (N + 1)
      = some (GoOutcome.panicked allocPanicMsg) := by
  unfold getFreeAddrPort
  exact allocLoop_panics bindOk timeAt deadline (candidateAt goos rnd) N 0 hb
    (by simpa using ht)

/-- Witness for C2: a concrete always-failing run that panics with the
exhaustion message once the clock (10 ms per iteration) passes 1000 ms. -/
theorem c2_witness :
    getFreeAddrPort "linux" (fun n => n) (fun _ => false) (fun i => 10 * i) 1000 102
      = some (GoOutcome.panicked allocPanicMsg) :=
  c2_alloc_budget_amended "linux" (fun n => n) (fun _ => false) (fun i => 10 * i)
    1000 101 (fun _ => rfl) (by norm_num)

/-- Theorem C7: every candidate synthesized by the allocator is in range.
On linux hosts the address is 127.o2.o3.o4 with o2 in 1..254, o3 in
0..254, o4 in 0..253 — so never 127.0.0.0 (o2 is nonzero) and never a
.255 octet — and the port is in 10000..50000; on other hosts the candidate
is the canonical loopback 127.0.0.1 with a port in 1024..65535. -/
theorem c7_port_ranges (r1 r2 r3 r4 r5 : Nat) :
    (1 ≤ randOctet2 r1 ∧ randOctet2 r1 ≤ 254) ∧
    randOctet3 r2 ≤ 254 ∧
    randOctet4 r3 ≤ 253 ∧
    (randOctet2 r1 ≠ 255 ∧ randOctet3 r2 ≠ 255 ∧ randOctet4 r3 ≠ 255) ∧
    randOctet2 r1 ≠ 0 ∧
    (10000 ≤ randPortHi r4 ∧ randPortHi r4 ≤ 50000) ∧
    (1024 ≤ randPortLo r5 ∧ randPortLo r5 ≤ 65535) ∧
    getRandomAddrPort r1 r2 r3 r4
      = "127." ++ toString (randOctet2 r1) ++ "." ++ toString (randOctet3 r2) ++ "."
          ++ toString (randOctet4 r3) ++ ":" ++ toString (randPortHi r4) ∧
    getRandomPort "127.0.0.1" r5 = "127.0.0.1:" ++ toString (randPortLo r5) ∧
    (∀ goosS : String, goosS ≠ "linux" →
      candidateAt goosS (fun _ => r5) 0 = getRandomPort "127.0.0.1" r5) := by
  refine ⟨⟨?_, ?_⟩, ?_, ?_, ⟨?_, ?_, ?_⟩, ?_, ⟨?_, ?_⟩, ⟨?_, ?_⟩, rfl, rfl, ?_⟩
  all_goals first
    | (intro goosS hg; simp [candidateAt, hg])
    | (simp only [randOctet2, randOctet3, randOctet4, randPortHi, randPortLo]; omega)

/-- Witness for C7: concrete bounds and the non-linux candidate shape. -/
theorem c7_witness :
    10000 ≤ randPortHi 123 ∧
    candidateAt "darwin" (fun _ => 7) 0 = getRandomPort "127.0.0.1" 7 := by
  obtain ⟨_, _, _, _, _, ⟨h7a, _⟩, _, _, _, h11⟩ := c7_port_ranges 1 2 3 123 7
  exact ⟨h7a, h11 "darwin" (by decide)⟩

/-! ## Panic watcher (func (q *QemuSystem) panicWatcher) -/

/-- Literal substring whose appearance in the stdout accumulator
identifies a guest kernel panic. -/
def panicPat : String := "Kernel panic"

/-- World the watcher runs in: the stdout accumulator's contents at each
one-second poll, and the poll index (if any) before which Stop was already
called by another path (caller or timeout enforcer).  The accumulator
keeps its contents after a Stop, so polls after a Stop still see it. -/
structure WatcherWorld where
  stdoutAt : Nat → String
  stopCalledAt : Option Nat

/-- Poll loop of panicWatcher: at poll i (after a one-second sleep) test
the stdout accumulator for the panic substring; on the first match return
the firing poll index, otherwise keep polling.  `none` means the watcher
is still polling after `fuel` polls.  The body reads only the stdout
accumulator: the source consults no other state. -/
def panicWatcherRun (stdoutAt : Nat → String) : Nat → Nat → Option Nat
  | _, 0 => none
  | i, fuel + 1 =>
    if hasSub (stdoutAt i) panicPat then some i
    else panicWatcherRun stdoutAt (i + 1) fuel

/-- Poll index at which the watcher fires (invokes Stop) in a world,
within `fuel` polls.  Defined from the world's stdout stream only, because
the source's watcher never reads whether Stop was already called. -/
def watcherFires (w : WatcherWorld) (fuel : Nat) : Option Nat :=
  panicWatcherRun w.stdoutAt 0 fuel

/-- Observable actions of the watcher once it matches. -/
inductive WAct where
  | sleepSettle
  | invokeStop
  | setKernelPanic
deriving DecidableEq

/-- Actions the watcher performs on its first match, in source order:
sleep a further second, invoke Stop, set KernelPanic, and return. -/
def watcherFireActs : List WAct :=
  [WAct.sleepSettle, WAct.invokeStop, WAct.setKernelPanic]

/-- Helper: one unfolding step of the watcher poll loop. -/
theorem panicWatcherRun_succ (stdoutAt : Nat → String) (i fuel : Nat) :
    panicWatcherRun stdoutAt i (fuel + 1)
      = if hasSub (stdoutAt i) panicPat then some i
        else panicWatcherRun stdoutAt (i + 1) fuel := rfl

/-- Helper: the watcher fires at the first poll whose accumulator contains
the panic substring. -/
theorem panicWatcherRun_firstFire (stdoutAt : Nat → String) :
    ∀ fuel s i : Nat, s ≤ i → i < s + fuel →
      hasSub (stdoutAt i) panicPat = true →
      (∀ j, s ≤ j → j < i → hasSub (stdoutAt j) panicPat = false) →
      panicWatcherRun stdoutAt s fuel = some i := by
  intro fuel
  induction fuel with
  | zero =>
    intro s i hsi hlt _ _
    omega
  | succ n ih =>
    intro s i hsi hlt hi hmin
    rcases Nat.eq_or_lt_of_le hsi with heq | hlt2
    · subst heq
      rw [panicWatcherRun_succ, if_pos hi]
    · have hs : hasSub (stdoutAt s) panicPat = false := hmin s (Nat.le_refl s) hlt2
      rw [panicWatcherRun_succ, if_neg (by simp [hs])]
      exact ih (s + 1) i hlt2 (by omega) hi
        (fun j hj1 hj2 => hmin j (by omega) hj2)

/-- Theorem C3 (counterexample): the claim that the watcher never invokes
Stop and never keeps running after Stop has been called by another path is
false: in the world below, Stop was already called (before poll 0), the
retained stdout accumulator contains the panic substring, and the watcher
nevertheless fires — invoking Stop again — at its very first poll, because
the source's watcher consults nothing but the stdout buffer. -/
theorem c3_counterexample :
    ¬ (∀ w : WatcherWorld, w.stopCalledAt = some 0 →
        ∀ fuel, watcherFires w fuel = none) := by
  intro h
  have hfires := h ⟨fun _ => "Kernel panic - not syncing", some 0⟩ rfl 1
  exact absurd hfires (by decide)

/-- Theorem C3 (amended): the watcher polls the stdout accumulator once
per second and fires at the first poll at which the accumulator contains
the panic substring; on firing it sleeps a settle second, invokes Stop,
sets KernelPanic and terminates (exactly one Stop invocation per firing).
It has, however, no awareness of a prior Stop: its firing poll is computed
from the stdout stream alone, so the same firing happens whatever value
the world records for a Stop already called by another path. -/
theorem c3_panic_watcher_amended (w : WatcherWorld) (st2 : Option Nat) (i fuel : Nat)
    (h1 : hasSub (w.stdoutAt i) panicPat = true)
    (h2 : ∀ j, j < i → hasSub (w.stdoutAt j) panicPat = false)
    (h3 : i < fuel) :
    watcherFires w fuel = some i ∧
    watcherFires { stdoutAt := w.stdoutAt, stopCalledAt := st2 } fuel = some i ∧
    watcherFireActs.count WAct.invokeStop = 1 := by
  have hrun : panicWatcherRun w.stdoutAt 0 fuel = some i :=
    panicWatcherRun_firstFire w.stdoutAt fuel 0 i (Nat.zero_le i) (by omega) h1
      (fun j _ hj => h2 j hj)
  exact ⟨hrun, hrun, rfl⟩

/-- Witness for C3: a concrete boot log whose second poll first shows the
panic substring makes the watcher fire at poll 1, whatever the recorded
external-Stop state. -/
theorem c3_witness :
    watcherFires ⟨fun n => if n = 0 then "booting" else "boot Kernel panic - not syncing", none⟩ 3
      = some 1 :=
  (c3_panic_watcher_amended
      ⟨fun n => if n = 0 then "booting" else "boot Kernel panic - not syncing", none⟩
      (some 0) 1 3 (by decide)
      (by
        intro j hj
        have hj0 : j = 0 := by omega
        subst hj0
        decide)
      (by omega)).1

/-! ## Start: post-spawn sequence (func (q *QemuSystem) Start, after cmd.Start) -/

/-- Background tasks Start launches around the child process. -/
inductive Monitor where
  | captureStdout
  | captureStderr
  | waiter
  | watcher
  | timer (d : Nat)
deriving DecidableEq

/-- What Start yields after the child process has been spawned. -/
structure StartOutcome where
  err : Option String
  monitors : List Monitor

/-- Post-spawn tail of Start: launch the two output-capture goroutines and
the liveness waiter, sleep the ~100 ms grace interval, and if the process
has already died (`died` is q.Died as read after that sleep) set the
startup error to a message carrying the captured stderr; then launch the
panic watcher unconditionally and, when the configured timeout is nonzero,
the one-shot timeout goroutine. -/
def startPostSpawn (died : Bool) (stderrBuf : String) (timeout : Nat) : StartOutcome :=
  { err := if died then some ("qemu died immediately: " ++ stderrBuf) else none
    monitors :=
      [Monitor.captureStdout, Monitor.captureStderr, Monitor.waiter, Monitor.watcher]
        ++ (if timeout ≠ 0 then [Monitor.timer timeout] else []) }

/-- Observable actions of the timeout goroutine's body. -/
inductive TAct where
  | sleep (d : Nat)
  | setKilledByTimeout
  | invokeStop
deriving DecidableEq

/-- Body of the timeout goroutine, in source order: sleep the configured
duration, set KilledByTimeout, invoke Stop — and nothing more. -/
def timerActs (d : Nat) : List TAct :=
  [TAct.sleep d, TAct.setKilledByTimeout, TAct.invokeStop]

/-- Theorem C5: when the child dies within the grace interval, Start
reports the descriptive startup error carrying the captured stderr, and
regardless of the instant death the panic watcher is launched and, for a
nonzero configured timeout, so is the timeout goroutine. -/
theorem c5_instant_death (died : Bool) (stderrBuf : String) (t : Nat)
    (hd : died = true) :
    (startPostSpawn died stderrBuf t).err = some ("qemu died immediately: " ++ stderrBuf) ∧
    Monitor.watcher ∈ (startPostSpawn died stderrBuf t).monitors ∧
    (t ≠ 0 → Monitor.timer t ∈ (startPostSpawn died stderrBuf t).monitors) := by
  subst hd
  refine ⟨rfl, ?_, fun ht => ?_⟩
  · exact List.mem_append_left _ (by decide)
  · refine List.mem_append_right _ ?_
    rw [if_pos ht]
    exact List.mem_singleton.mpr rfl

/-- Witness for C5: a concrete instantly-dead start with timeout 7. -/
theorem c5_witness :
    (startPostSpawn true "oops" 7).err = some ("qemu died immediately: " ++ "oops") ∧
    Monitor.timer 7 ∈ (startPostSpawn true "oops" 7).monitors :=
  ⟨(c5_instant_death true "oops" 7 rfl).1,
   (c5_instant_death true "oops" 7 rfl).2.2 (by decide)⟩

/-- Theorem C8: Start launches a timer goroutine if and only if the
configured timeout is nonzero; any launched timer carries exactly the
configured duration; at most one timer is launched; and the timer body
sleeps exactly that duration, then sets KilledByTimeout and invokes Stop
exactly once — no retry, no periodic re-check. -/
theorem c8_timeout_enforcer (died : Bool) (stderrBuf : String) (t : Nat) :
    ((∃ d, Monitor.timer d ∈ (startPostSpawn died stderrBuf t).monitors) ↔ t ≠ 0) ∧
    (∀ d, Monitor.timer d ∈ (startPostSpawn died stderrBuf t).monitors → d = t) ∧
    ((startPostSpawn died stderrBuf t).monitors.count (Monitor.timer t)
      = if t ≠ 0 then 1 else 0) ∧
    timerActs t = [TAct.sleep t, TAct.setKilledByTimeout, TAct.invokeStop] ∧
    (timerActs t).count TAct.invokeStop = 1 := by
  by_cases ht : t = 0
  · subst ht
    refine ⟨?_, ?_, ?_, rfl, rfl⟩
    · simp [startPostSpawn]
    · intro d hd
      simp [startPostSpawn] at hd
    · simp [startPostSpawn]
  · refine ⟨?_, ?_, ?_, rfl, rfl⟩
    · simp [startPostSpawn, ht]
    · intro d hd
      simp [startPostSpawn, ht] at hd
      exact hd
    · simp [startPostSpawn, ht]

/-- Witness for C8: with timeout 9 a timer is launched and counted once. -/
theorem c8_witness :
    (∃ d, Monitor.timer d ∈ (startPostSpawn false "" 9).monitors) ∧
    (startPostSpawn false "" 9).monitors.count (Monitor.timer 9) = 1 :=
  ⟨(c8_timeout_enforcer false "" 9).1.mpr (by decide),
   by
    have h := (c8_timeout_enforcer false "" 9).2.2.1
    simpa using h⟩

/-! ## Constructor (func NewQemuSystem) -/

/-- External calls the constructor can make, in order.  It makes no
process-spawning call: spawning happens only later, in Start. -/
inductive SysCall where
  | lookPath (name : String)
  | statCall (path : String)
  | spawn (cmdName : String)
deriving DecidableEq

/-- Errors the constructor returns: the exec.LookPath error for a missing
emulator binary, or the os.Stat error for a missing path — each carries
the name or path it is about, as Go's PathError does. -/
inductive GoErr where
  | lookPathErr (name : String)
  | statErr (path : String)
deriving DecidableEq

/-- Host environment the constructor consults: whether a binary name
resolves on the executable search path, and whether a path exists. -/
structure Host where
  pathHas : String → Bool
  fileAt : String → Bool

/-- Result of the constructor: the (possibly nil) supervisor pointer, the
(possibly nil) error — Go returns both — and the external calls made. -/
structure NewResult where
  q : Option QemuSystem
  err : Option GoErr
  calls : List SysCall

/-- NewQemuSystem: look up qemu-system-<arch> on the path (returning a nil
supervisor on failure, because `q` is only allocated afterwards); then
populate the fields one by one, stat-checking the kernel path and then the
drive path and returning the partially populated supervisor with the stat
error as soon as a check fails; on success set the defaults Cpus = 1 and
Memory = 512 megabytes. -/
def NewQemuSystem (hst : Host) (archS : String) (kernel : Kernel) (drivePath : String) :
    NewResult :=
  let binName := "qemu-system-" ++ archS
  if hst.pathHas binName = false then
    { q := none, err := some (GoErr.lookPathErr binName), calls := [SysCall.lookPath binName] }
  else if hst.fileAt kernel.KernelPath = false then
    { q := some { zeroQemu with arch := archS }
      err := some (GoErr.statErr kernel.KernelPath)
      calls := [SysCall.lookPath binName, SysCall.statCall kernel.KernelPath] }
  else if hst.fileAt drivePath = false then
    { q := some { zeroQemu with arch := archS, kernel := kernel }
      err := some (GoErr.statErr drivePath)
      calls := [SysCall.lookPath binName, SysCall.statCall kernel.KernelPath,
                SysCall.statCall drivePath] }
  else
    { q := some { zeroQemu with arch := archS, kernel := kernel, drivePath := drivePath, Cpus := 1, Memory := 512 }
      err := none
      calls := [SysCall.lookPath binName, SysCall.statCall kernel.KernelPath,
                SysCall.statCall drivePath] }

/-- Theorem C6: with the emulator binary present, a missing kernel path
yields the stat error naming the kernel path, a missing disk path yields
the stat error naming the disk path (so the two errors are distinct
whenever the paths differ, and each is attributable to its path); the
constructor never spawns a process; and on success the error is nil and
the supervisor carries the defaults Cpus = 1 and Memory = 512. -/
theorem c6_constructor_validation (hst : Host) (archS : String) (k : Kernel) (dp : String)
    (hp : hst.pathHas ("qemu-system-" ++ archS) = true) :
    (hst.fileAt k.KernelPath = false →
      (NewQemuSystem hst archS k dp).err = some (GoErr.statErr k.KernelPath)) ∧
    (hst.fileAt k.KernelPath = true → hst.fileAt dp = false →
      (NewQemuSystem hst archS k dp).err = some (GoErr.statErr dp)) ∧
    (k.KernelPath ≠ dp → (GoErr.statErr k.KernelPath : GoErr) ≠ GoErr.statErr dp) ∧
    (∀ c, SysCall.spawn c ∉ (NewQemuSystem hst archS k dp).calls) ∧
    (hst.fileAt k.KernelPath = true → hst.fileAt dp = true →
      (NewQemuSystem hst archS k dp).err = none ∧
      ∃ q0, (NewQemuSystem hst archS k dp).q = some q0 ∧ q0.Cpus = 1 ∧ q0.Memory = 512) := by
  refine ⟨?_, ?_, ?_, ?_, ?_⟩
  · intro hk
    simp [NewQemuSystem, hp, hk]
  · intro hk hdp
    simp [NewQemuSystem, hp, hk, hdp]
  · intro hne heq
    exact hne (by injection heq)
  · intro c
    by_cases hk : hst.fileAt k.KernelPath = true
    · by_cases hdp : hst.fileAt dp = true
      · simp [NewQemuSystem, hp, hk, hdp]
      · simp only [Bool.not_eq_true] at hdp
        simp [NewQemuSystem, hp, hk, hdp]
    · simp only [Bool.not_eq_true] at hk
      simp [NewQemuSystem, hp, hk]
  · intro hk hdp
    refine ⟨by simp [NewQemuSystem, hp, hk, hdp], ?_⟩
    refine ⟨{ zeroQemu with arch := archS, kernel := k, drivePath := dp, Cpus := 1, Memory := 512 }, ?_, rfl, rfl⟩
    simp [NewQemuSystem, hp, hk, hdp]

/-- Witness for C6: a concrete host with the binary and kernel present but
the disk image missing gets the stat error naming the disk path. -/
theorem c6_witness :
    (NewQemuSystem ⟨fun s => s == "qemu-system-x86_64", fun p => p == "/k"⟩
        "x86_64" ⟨"n", "/k", ""⟩ "/d").err
      = some (GoErr.statErr "/d") :=
  (c6_constructor_validation ⟨fun s => s == "qemu-system-x86_64", fun p => p == "/k"⟩
      "x86_64" ⟨"n", "/k", ""⟩ "/d" (by decide)).2.1 (by decide) (by decide)

/-- Theorem C9: the constructor's supervisor pointer is nil exactly when
the emulator-binary lookup fails; when the lookup succeeds but the kernel
path check fails, the caller gets a non-nil supervisor holding only the
architecture (kernel and drive unset, Cpus still 0, so not yet valid)
together with a non-nil error; and likewise after a failing disk path
check the supervisor holds only architecture and kernel. -/
theorem c9_nil_supervisor (hst : Host) (archS : String) (k : Kernel) (dp : String) :
    ((NewQemuSystem hst archS k dp).q = none ↔
      hst.pathHas ("qemu-system-" ++ archS) = false) ∧
    (hst.pathHas ("qemu-system-" ++ archS) = true → hst.fileAt k.KernelPath = false →
      (NewQemuSystem hst archS k dp).q = some { zeroQemu with arch := archS } ∧
      (NewQemuSystem hst archS k dp).err ≠ none ∧
      ({ zeroQemu with arch := archS } : QemuSystem).Cpus = 0) ∧
    (hst.pathHas ("qemu-system-" ++ archS) = true → hst.fileAt k.KernelPath = true →
      hst.fileAt dp = false →
      (NewQemuSystem hst archS k dp).q
          = some { zeroQemu with arch := archS, kernel := k } ∧
      (NewQemuSystem hst archS k dp).err ≠ none) := by
  refine ⟨?_, ?_, ?_⟩
  · cases hp : hst.pathHas ("qemu-system-" ++ archS) with
    | false => simp [NewQemuSystem, hp]
    | true =>
      by_cases hk : hst.fileAt k.KernelPath = true
      · by_cases hdp : hst.fileAt dp = true
        · simp [NewQemuSystem, hp, hk, hdp]
        · simp only [Bool.not_eq_true] at hdp
          simp [NewQemuSystem, hp, hk, hdp]
      · simp only [Bool.not_eq_true] at hk
        simp [NewQemuSystem, hp, hk]
  · intro hp hk
    refine ⟨by simp [NewQemuSystem, hp, hk], by simp [NewQemuSystem, hp, hk], rfl⟩
  · intro hp hk hdp
    exact ⟨by simp [NewQemuSystem, hp, hk, hdp], by simp [NewQemuSystem, hp, hk, hdp]⟩

/-- Witness for C9: with a host that resolves no binary, the supervisor
pointer is nil. -/
theorem c9_witness :
    (NewQemuSystem ⟨fun _ => false, fun _ => true⟩ "i386" ⟨"n", "/k", ""⟩ "/d").q = none :=
  (c9_nil_supervisor ⟨fun _ => false, fun _ => true⟩ "i386" ⟨"n", "/k", ""⟩ "/d").1.mpr rfl

/-! ## GetSshCommand and CopyFile (address:port splitting) -/

/-- Message of the Go runtime panic raised by indexing element 1 of a
one-element slice. -/
def outOfRangeMsg : String := "runtime error: index out of range [1] with length 1"

/-- Go strings.Split for a one-character separator, on character lists:
splitting the empty list yields the one-element slice holding the empty
piece, exactly as strings.Split("", sep) yields [""] in Go. -/
def splitChars (sep : Char) : List Char → List (List Char)
  | [] => [[]]
  | c :: t =>
    if c = sep then [] :: splitChars sep t
    else
      match splitChars sep t with
      | [] => [[c]]
      | h :: r => (c :: h) :: r

/-- Go strings.Split of a string on a one-character separator. -/
def goSplit (s : String) (sep : Char) : List String :=
  (splitChars sep s.data).map String.mk

/-- GetSshCommand: split the reserved address:port on the colon and build
the ssh connection command from the two pieces.  strings.Split of the
empty string yields the one-element slice [""], so taking index 1 — as the
source does unconditionally — panics when sshAddrPort is still empty. -/
def GetSshCommand (q : QemuSystem) : GoOutcome String :=
  match goSplit q.sshAddrPort ':' with
  | addr :: port :: _ =>
    GoOutcome.ok ("ssh -o StrictHostKeyChecking=no" ++ " -p " ++ port ++ " root@" ++ addr)
  | _ => GoOutcome.panicked outOfRangeMsg

/-- CopyFile, up to the point where the scp process is invoked: split the
reserved address:port on the colon (panicking on a one-element result,
exactly as GetSshCommand does) and assemble the scp argument list. -/
def CopyFileScpArgs (q : QemuSystem) (user localPath remotePath : String) :
    GoOutcome (List String) :=
  match goSplit q.sshAddrPort ':' with
  | addr :: port :: _ =>
    GoOutcome.ok ["-P", port, "-o", "StrictHostKeyChecking=no", "-o", "LogLevel=error",
      localPath, user ++ "@" ++ addr ++ ":" ++ remotePath]
  | _ => GoOutcome.panicked outOfRangeMsg

/-- Theorem C10: on a supervisor whose reserved address:port string is
still empty (as before a successful Start), both GetSshCommand and
CopyFile panic with the index-out-of-range runtime error when indexing the
split result, instead of returning an error. -/
theorem c10_split_panic (q : QemuSystem) (user lp rp : String)
    (h : q.sshAddrPort = "") :
    GetSshCommand q = GoOutcome.panicked outOfRangeMsg ∧
    CopyFileScpArgs q user lp rp = GoOutcome.panicked outOfRangeMsg := by
  have hs : goSplit "" ':' = [""] := rfl
  constructor
  · simp only [GetSshCommand, h, hs]
  · simp only [CopyFileScpArgs, h, hs]

/-- Witness for C10: the zero-valued supervisor (sshAddrPort empty) makes
GetSshCommand panic. -/
theorem c10_witness :
    GetSshCommand zeroQemu = GoOutcome.panicked outOfRangeMsg :=
  (c10_split_panic zeroQemu "root" "/a" "/b" rfl).1

/-! ## Launch configuration (argument list built by Start, lines 181-205) -/

/-- Unconditional part of the qemu argument list built by Start: snapshot
and no-graphics mode, disk, kernel, append line, cpu and memory counts,
and the forwarding network device for the reserved address:port. -/
def qemuBaseArgs (q : QemuSystem) (sshAddrPort : String) : List String :=
  ["-snapshot", "-nographic",
   "-hda", q.drivePath,
   "-kernel", q.kernel.KernelPath,
   "-append", "root=/dev/sda ignore_loglevel console=ttyS0 rw",
   "-smp", toString q.Cpus,
   "-m", toString q.Memory,
   "-device", "e1000,netdev=n1",
   "-netdev", "user,id=n1," ++ ("hostfwd=tcp:" ++ sshAddrPort ++ "-:22")]

/-- Full qemu argument list built by Start.  `kvm` is the result of
kvmExists() (os.Stat("/dev/kvm") succeeding on the host); `goos` is
runtime.GOOS.  The conditional appends, in source order: the gdb flag when
debug is set; the initrd flag when the image names one; -enable-kvm when
the architecture is x86_64 or i386 and /dev/kvm exists; and the hvf
acceleration flags when the architecture is x86_64 and the host OS is
darwin — the latter condition does not consult kvmExists(). -/
def qemuArgs (q : QemuSystem) (sshAddrPort : String) (kvm : Bool) (goos : String) :
    List String :=
  let a1 := if q.debug then qemuBaseArgs q sshAddrPort ++ ["-gdb", q.gdb]
            else qemuBaseArgs q sshAddrPort
  let a2 := if q.kernel.InitrdPath ≠ "" then a1 ++ ["-initrd", q.kernel.InitrdPath] else a1
  let a3 := if (q.arch = X86_64 ∨ q.arch = I386) ∧ kvm then a2 ++ ["-enable-kvm"] else a2
  if q.arch = X86_64 ∧ goos = "darwin" then a3 ++ ["-accel", "hvf", "-cpu", "host"] else a3

/-- Helper: membership in a conditionally extended list. -/
theorem mem_if_append {α : Type} (a : α) (c : Prop) [Decidable c] (l seg : List α) :
    (a ∈ if c then l ++ seg else l) ↔ (a ∈ l ∨ (c ∧ a ∈ seg)) := by
  split
  · rename_i h
    simp [List.mem_append, h]
  · rename_i h
    simp [h]

/-- Helper: an argument occurs in the built list exactly when it occurs in
the unconditional part or in one of the conditionally appended segments
whose condition holds. -/
theorem mem_qemuArgs (q : QemuSystem) (fwd : String) (kvm : Bool) (goos : String)
    (flag : String) :
    flag ∈ qemuArgs q fwd kvm goos ↔
      (flag ∈ qemuBaseArgs q fwd
        ∨ (q.debug = true ∧ flag ∈ (["-gdb", q.gdb] : List String))
        ∨ (q.kernel.InitrdPath ≠ "" ∧ flag ∈ (["-initrd", q.kernel.InitrdPath] : List String))
        ∨ (((q.arch = X86_64 ∨ q.arch = I386) ∧ kvm = true)
            ∧ flag ∈ (["-enable-kvm"] : List String))
        ∨ ((q.arch = X86_64 ∧ goos = "darwin")
            ∧ flag ∈ (["-accel", "hvf", "-cpu", "host"] : List String))) := by
  simp only [qemuArgs, mem_if_append]
  tauto

/-- Theorem C4 (counterexample): the claim that the hvf flag is appended
only when no hardware-acceleration device was found is false: with
architecture x86_64, GOOS darwin and kvmExists() returning true, the built
argument list still contains "hvf", because the darwin branch of the
source never consults kvmExists(). -/
theorem c4_counterexample :
    ¬ (∀ (q : QemuSystem) (fwd : String) (kvm : Bool) (goos : String),
        "hvf" ∈ qemuArgs q fwd kvm goos → kvm = false) := by
  intro h
  have hmem : "hvf" ∈ qemuArgs { zeroQemu with arch := X86_64 } "127.0.0.1:2222" true "darwin" := by
    decide
  exact absurd (h _ _ _ _ hmem) (by decide)

/-- Theorem C4 (amended): provided the caller-supplied strings do not
collide with the two flag literals, -enable-kvm occurs in the built
argument list exactly when the architecture is x86_64 or i386 and
/dev/kvm exists on the host, and the hvf flag occurs exactly when the
architecture is x86_64 and the host OS is darwin — regardless of whether a
hardware-acceleration device was found. -/
theorem c4_accel_flags_amended (q : QemuSystem) (fwd : String) (kvm : Bool) (goos : String)
    (hd1 : q.drivePath ≠ "-enable-kvm") (hd2 : q.drivePath ≠ "hvf")
    (hk1 : q.kernel.KernelPath ≠ "-enable-kvm") (hk2 : q.kernel.KernelPath ≠ "hvf")
    (hi1 : q.kernel.InitrdPath ≠ "-enable-kvm") (hi2 : q.kernel.InitrdPath ≠ "hvf")
    (hg1 : q.gdb ≠ "-enable-kvm") (hg2 : q.gdb ≠ "hvf")
    (hc1 : toString q.Cpus ≠ "-enable-kvm") (hc2 : toString q.Cpus ≠ "hvf")
    (hm1 : toString q.Memory ≠ "-enable-kvm") (hm2 : toString q.Memory ≠ "hvf")
    (hn1 : "user,id=n1," ++ ("hostfwd=tcp:" ++ fwd ++ "-:22") ≠ "-enable-kvm")
    (hn2 : "user,id=n1," ++ ("hostfwd=tcp:" ++ fwd ++ "-:22") ≠ "hvf") :
    ("-enable-kvm" ∈ qemuArgs q fwd kvm goos
      ↔ ((q.arch = X86_64 ∨ q.arch = I386) ∧ kvm = true)) ∧
    ("hvf" ∈ qemuArgs q fwd kvm goos ↔ (q.arch = X86_64 ∧ goos = "darwin")) := by
  have hb1 : "-enable-kvm" ∉ qemuBaseArgs q fwd := by
    intro hmem
    simp only [qemuBaseArgs, List.mem_cons, List.not_mem_nil, or_false] at hmem
    rcases hmem with h|h|h|h|h|h|h|h|h|h|h|h|h|h|h|h <;>
      first
        | exact absurd h (by decide)
        | exact hd1 h.symm
        | exact hk1 h.symm
        | exact hc1 h.symm
        | exact hm1 h.symm
        | exact hn1 h.symm
  have hb2 : "hvf" ∉ qemuBaseArgs q fwd := by
    intro hmem
    simp only [qemuBaseArgs, List.mem_cons, List.not_mem_nil, or_false] at hmem
    rcases hmem with h|h|h|h|h|h|h|h|h|h|h|h|h|h|h|h <;>
      first
        | exact absurd h (by decide)
        | exact hd2 h.symm
        | exact hk2 h.symm
        | exact hc2 h.symm
        | exact hm2 h.symm
        | exact hn2 h.symm
  constructor
  · rw [mem_qemuArgs]
    constructor
    · rintro (hm | ⟨_, hm⟩ | ⟨_, hm⟩ | ⟨hc, _⟩ | ⟨_, hm⟩)
      · exact absurd hm hb1
      · simp only [List.mem_cons, List.not_mem_nil, or_false] at hm
        rcases hm with h | h
        · exact absurd h (by decide)
        · exact absurd h.symm hg1
      · simp only [List.mem_cons, List.not_mem_nil, or_false] at hm
        rcases hm with h | h
        · exact absurd h (by decide)
        · exact absurd h.symm hi1
      · exact hc
      · simp only [List.mem_cons, List.not_mem_nil, or_false] at hm
        rcases hm with h | h | h | h <;> exact absurd h (by decide)
    · intro hc
      exact Or.inr (Or.inr (Or.inr (Or.inl ⟨hc, by decide⟩)))
  · rw [mem_qemuArgs]
    constructor
    · rintro (hm | ⟨_, hm⟩ | ⟨_, hm⟩ | ⟨_, hm⟩ | ⟨hc, _⟩)
      · exact absurd hm hb2
      · simp only [List.mem_cons, List.not_mem_nil, or_false] at hm
        rcases hm with h | h
        · exact absurd h (by decide)
        · exact absurd h.symm hg2
      · simp only [List.mem_cons, List.not_mem_nil, or_false] at hm
        rcases hm with h | h
        · exact absurd h (by decide)
        · exact absurd h.symm hi2
      · simp only [List.mem_cons, List.not_mem_nil, or_false] at hm
        exact absurd hm (by decide)
      · exact hc
    · intro hc
      exact Or.inr (Or.inr (Or.inr (Or.inr ⟨hc, by decide⟩)))

/-- Witness for C4: a concrete x86_64 configuration on a linux host with
/dev/kvm present gets the -enable-kvm flag. -/
theorem c4_witness :
    "-enable-kvm" ∈ qemuArgs
      { zeroQemu with arch := "x86_64", drivePath := "/d", kernel := ⟨"n", "/k", ""⟩ }
      "127.0.0.1:2222" true "linux" :=
  ((c4_accel_flags_amended
      { zeroQemu with arch := "x86_64", drivePath := "/d", kernel := ⟨"n", "/k", ""⟩ }
      "127.0.0.1:2222" true "linux"
      (by decide) (by decide) (by decide) (by decide) (by decide) (by decide)
      (by decide) (by decide) (by decide) (by decide) (by decide) (by decide)
      (by decide) (by decide)).1).mpr ⟨Or.inl rfl, rfl⟩

end QemuKernel
